import Mathlib

/-!
Verification development for the Mental Health Assistant backend.

We give a shallow embedding of the core logic of
`backend/services/crisis_detection.py`, `backend/services/monitoring.py`
and `backend/utils/activity_recommendations.py`, and prove the spec's
claims about it.  Mood scores (Python floats compared against fixed
decimal thresholds) are modelled as rationals; calendar dates are
modelled as integers counting days; the sqlite rows touched by the
streak logic are modelled as explicit record values.
-/

namespace MentalHealth

/-! ### ASCII string model (Python `str.lower` and substring `in`) -/

/-- ASCII lower-casing of one character, as CPython does for A-Z. -/
def lowerChar (c : Char) : Char :=
  if 65 ≤ c.toNat ∧ c.toNat ≤ 90 then Char.ofNat (c.toNat + 32) else c

/-- `text.lower()` on ASCII text. -/
def lowerStr (s : String) : String :=
  ⟨s.data.map lowerChar⟩

/-- Bool-valued list-prefix test. -/
def isPrefixB : List Char → List Char → Bool
  | [], _ => true
  | _ :: _, [] => false
  | a :: as, b :: bs => a == b && isPrefixB as bs

/-- Bool-valued substring scan: does `needle` occur inside `haystack`? -/
def containsB (needle : List Char) : List Char → Bool
  | [] => isPrefixB needle []
  | b :: bs => isPrefixB needle (b :: bs) || containsB needle bs

/-- Python `needle in haystack` on strings. -/
def strContains (haystack needle : String) : Bool :=
  containsB needle.data haystack.data

/-! ### `crisis_detection.py`: keyword tables -/

/-- The apostrophe character, used inside several keywords. -/
def apos : Char := Char.ofNat 39

/-- Glue two fragments with an apostrophe between them. -/
def withApos (a b : String) : String := a ++ String.singleton apos ++ b

/-- `CrisisDetector.crisis_keywords`, in source order. -/
def crisis_keywords : List String :=
  [ "suicide", "kill myself", "end it all", "end my life", "take my life",
    withApos "don" "t want to live", "better off dead", "want to die", "kill me",
    "suicide plan", "suicidal", "end it", "no point living",
    "hurt myself", "cut myself", "harm myself", "self harm", "self-harm",
    "cutting", "burning myself", "punish myself",
    "hopeless", "no hope", "nothing matters", "pointless", "worthless",
    "useless", "failure", withApos "can" "t go on", "give up", "no way out",
    "trapped", "stuck forever", "never get better",
    "nobody cares", "alone forever", "no one understands", "abandoned",
    "empty inside", "numb", withApos "can" "t feel anything", "dead inside",
    withApos "can" "t take it anymore", "at my limit", "breaking point",
    "lost everything",
    "nothing left", "final straw", "had enough", "over it" ]

/-- `CrisisDetector.high_severity_keywords`. -/
def high_severity_keywords : List String :=
  [ "suicide", "kill myself", "end my life", "want to die", "better off dead",
    "suicide plan", "take my life", "end it all" ]

/-- `CrisisDetector.medium_severity_keywords`. -/
def medium_severity_keywords : List String :=
  [ "hurt myself", "cut myself", "self harm", "hopeless", "worthless",
    withApos "can" "t go on", "give up", "no way out" ]

/-! ### `crisis_detection.py`: analyze_crisis_level -/

/-- One pass of the severity-escalation `if/elif/elif` in the keyword
loop of `analyze_crisis_level` (lines 101-106), applied to a keyword
that did match. -/
def sevStep (severity_level keyword : String) : String :=
  if keyword ∈ high_severity_keywords then "high"
  else if keyword ∈ medium_severity_keywords ∧ severity_level ≠ "high" then "medium"
  else if severity_level = "none" then "low"
  else severity_level

/-- One iteration of the keyword loop of `analyze_crisis_level`
(lines 97-106): on a match, record the keyword and escalate the
severity; otherwise leave the accumulator alone. -/
def scanStep (text_lower : String) (acc : List String × String)
    (keyword : String) : List String × String :=
  if strContains text_lower keyword then
    (acc.1 ++ [keyword], sevStep acc.2 keyword)
  else acc

/-- The keyword-scanning loop of `analyze_crisis_level` (lines 97-106):
collects `found_keywords` in table order and the final `severity_level`. -/
def scanKeywords (text_lower : String) : List String × String :=
  crisis_keywords.foldl (scanStep text_lower) ([], "none")

/-- Rank of a severity tier in the order none < low < medium < high. -/
def sevRank : String → Nat
  | "low" => 1
  | "medium" => 2
  | "high" => 3
  | _ => 0

/-- The severity values the scan can actually hold. -/
def validSev (s : String) : Prop :=
  s = "none" ∨ s = "low" ∨ s = "medium" ∨ s = "high"

/-- The result dictionary of `analyze_crisis_level` (sans timestamp). -/
structure CrisisAnalysis where
  is_crisis : Bool
  crisis_level : String
  found_keywords : List String
  sentiment_crisis : Bool
  mood_score : ℚ
  severity_assessment : String
  deriving Repr, DecidableEq

/-- `CrisisDetector.analyze_crisis_level` (lines 80-136). -/
def analyze_crisis_level (text : String) (mood_score : ℚ) : CrisisAnalysis :=
  let text_lower := lowerStr text
  let scanned := scanKeywords text_lower
  let found_keywords := scanned.1
  let severity_level := scanned.2
  let sentiment_crisis : Bool := decide (mood_score < -(4/5 : ℚ))
  let is_crisis : Bool :=
    sentiment_crisis || decide (0 < found_keywords.length) ||
      decide (severity_level = "high" ∨ severity_level = "medium")
  let crisis_level : String :=
    if severity_level = "high" ∨ (sentiment_crisis = true ∧ 0 < found_keywords.length) then
      "critical"
    else if severity_level = "medium" ∨ sentiment_crisis = true ∨
        2 ≤ found_keywords.length then
      "high"
    else if 0 < found_keywords.length ∨ mood_score < -(3/5 : ℚ) then
      "moderate"
    else
      "none"
  { is_crisis := is_crisis
    crisis_level := crisis_level
    found_keywords := found_keywords
    sentiment_crisis := sentiment_crisis
    mood_score := mood_score
    severity_assessment := severity_level }

/-! ### `crisis_detection.py`: helplines -/

/-- One entry of the `CrisisDetector.helplines` table. -/
structure Helpline where
  name : String
  phone : Option String
  url : String
  description : String
  deriving Repr, DecidableEq

/-- The "international" helpline entry. -/
def helpline_international : Helpline :=
  { name := "Find A Helpline", phone := none,
    url := "https://findahelpline.com",
    description := "International crisis helpline directory" }

/-- The "us" helpline entry. -/
def helpline_us : Helpline :=
  { name := "988 Suicide & Crisis Lifeline", phone := some "988",
    url := "https://988lifeline.org",
    description := "24/7 crisis support in the United States" }

/-- The "uk" helpline entry. -/
def helpline_uk : Helpline :=
  { name := "Samaritans", phone := some "116 123",
    url := "https://www.samaritans.org",
    description := "24/7 crisis support in the United Kingdom" }

/-- The "india" helpline entry. -/
def helpline_india : Helpline :=
  { name := "AASRA", phone := some "91-22-27546669",
    url := "http://www.aasra.info",
    description := "24/7 crisis support in India" }

/-- `CrisisDetector.helplines` as an association list (its keys are the
dictionary keys, in source order). -/
def helplines : List (String × Helpline) :=
  [ ("international", helpline_international),
    ("us", helpline_us),
    ("uk", helpline_uk),
    ("india", helpline_india) ]

/-- The bundle returned by `_get_helplines`. -/
structure HelplineBundle where
  primary : Helpline
  international : Helpline
  additional : List Helpline
  deriving Repr, DecidableEq

/-- `CrisisDetector._get_helplines` (lines 210-228). -/
def get_helplines (location : String) : HelplineBundle :=
  let location_lower := lowerStr location
  let primary_helpline :=
    match helplines.lookup location_lower with
    | some h => h
    | none => helpline_international
  { primary := primary_helpline
    international := helpline_international
    additional := [helpline_us, helpline_uk, helpline_india] }

/-! ### `monitoring.py`: user streaks

Calendar dates are modelled as integers counting days, so that
`last_checkin + timedelta(days=1)` becomes `+ 1`. -/

/-- One row of the `user_streaks` table (for a fixed user). -/
structure StreakRow where
  current_streak : Nat
  longest_streak : Nat
  last_checkin_date : Option Int
  total_checkins : Nat
  streak_milestones : List Nat
  deriving Repr, DecidableEq

/-- `milestone_days` from `_update_user_streak` (line 561). -/
def milestone_days : List Nat := [7, 14, 30, 60, 100, 365]

/-- One iteration of the milestone loop of `_update_user_streak`
(lines 562-564): append the threshold when reached and not yet
recorded. -/
def milestoneStep (new_streak : Nat) (ms : List Nat) (milestone : Nat) :
    List Nat :=
  if milestone ≤ new_streak ∧ milestone ∉ ms then ms ++ [milestone] else ms

/-- The milestone loop of `_update_user_streak` (lines 562-564). -/
def addMilestones (new_streak : Nat) (milestones : List Nat) : List Nat :=
  milestone_days.foldl (milestoneStep new_streak) milestones

/-- `MonitoringSystem._update_user_streak` (lines 526-575): the stored
row for the user (or `none` if absent) together with the check-in date
determine the replaced row. -/
def update_user_streak (row : Option StreakRow) (checkin_date : Int) : StreakRow :=
  let current_streak := (row.map (·.current_streak)).getD 0
  let longest_streak := (row.map (·.longest_streak)).getD 0
  let last_checkin := (row.map (·.last_checkin_date)).getD none
  let total_checkins := (row.map (·.total_checkins)).getD 0
  let milestones := (row.map (·.streak_milestones)).getD []
  let new_streak :=
    match last_checkin with
    | none => 1
    | some lc =>
      if checkin_date = lc then current_streak
      else if checkin_date = lc + 1 then current_streak + 1
      else 1
  let new_longest := max longest_streak new_streak
  let new_milestones := addMilestones new_streak milestones
  { current_streak := new_streak
    longest_streak := new_longest
    last_checkin_date := some checkin_date
    total_checkins := total_checkins + 1
    streak_milestones := new_milestones }

/-- The dictionary returned by `get_user_streak_info`. -/
structure StreakInfo where
  current_streak : Nat
  longest_streak : Nat
  last_checkin_date : Option Int
  total_checkins : Nat
  milestones_achieved : List Nat
  checked_in_today : Bool
  deriving Repr, DecidableEq

/-- `MonitoringSystem.get_user_streak_info` (lines 577-619): a pure read
of the stored row.  The second component of the result is the storage
state after the call; the body runs a single SELECT and no write, so the
state is returned unchanged. -/
def get_user_streak_info (row : Option StreakRow) (today : Int) :
    StreakInfo × Option StreakRow :=
  match row with
  | some r =>
    let reported_streak :=
      match r.last_checkin_date with
      | some lc => if 1 < today - lc then 0 else r.current_streak
      | none => r.current_streak
    (⟨reported_streak, r.longest_streak, r.last_checkin_date,
       r.total_checkins, r.streak_milestones,
       match r.last_checkin_date with
       | some lc => decide (lc = today)
       | none => false⟩, row)
  | none => (⟨0, 0, none, 0, [], false⟩, row)

/-- Consecutive daily check-ins: `checkins start n` is the stored row
after `n + 1` check-ins on days `start, start + 1, ..., start + n`,
starting from no prior row. -/
def checkins (start : Int) : Nat → StreakRow
  | 0 => update_user_streak none start
  | n + 1 => update_user_streak (some (checkins start n)) (start + (n + 1))

/-! ### `monitoring.py`: analytics summary -/

/-- The fields of an `interactions` row that `get_analytics_summary`
reads. -/
structure InteractionRow where
  timestamp : Int
  user_id : String
  mood_score : Option ℚ
  deriving Repr, DecidableEq

/-- The fields of a `crisis_events` row that `get_analytics_summary`
reads. -/
structure CrisisEventRow where
  timestamp : Int
  crisis_level : String
  deriving Repr, DecidableEq

/-- The numeric core of the summary returned by `get_analytics_summary`. -/
structure AnalyticsSummary where
  period_days : Int
  total_interactions : Nat
  total_crisis_events : Nat
  crisis_rate : ℚ
  unique_users : Nat
  deriving Repr, DecidableEq

/-- `MonitoringSystem.get_analytics_summary` (lines 301-368), restricted
to its counting core.  `now` stands for `datetime.now()`; rows count when
`timestamp >= now - days`, matching the SQL `WHERE timestamp >= ?`. -/
def get_analytics_summary (interactions : List InteractionRow)
    (crisis_events : List CrisisEventRow) (now : Int) (days : Int) :
    AnalyticsSummary :=
  let start_date := now - days
  let windowed := interactions.filter (fun i => start_date ≤ i.timestamp)
  let total_interactions := windowed.length
  let total_crisis_events :=
    (crisis_events.filter (fun e => start_date ≤ e.timestamp)).length
  { period_days := days
    total_interactions := total_interactions
    total_crisis_events := total_crisis_events
    crisis_rate :=
      if 0 < total_interactions then
        (total_crisis_events : ℚ) / (total_interactions : ℚ) * 100
      else 0
    unique_users := (windowed.map (·.user_id)).dedup.length }

/-! ### `activity_recommendations.py`: mood category selection -/

/-- The mood-category selection of
`ActivityRecommendationEngine.get_recommendations` (lines 280-291).
The subsequent table lookup, preference filtering and random sampling
consume this category; only the selection itself is modelled. -/
def recommendation_category (mood_score : ℚ) (crisis_level : String) : String :=
  if crisis_level = "critical" ∨ crisis_level = "high" then "crisis"
  else if mood_score < -(1/2 : ℚ) then "moderate_negative"
  else if mood_score < (1/10 : ℚ) then "neutral"
  else "positive"

/-! ## Helper lemmas -/

theorem sevStep_from_high (kw : String) : sevStep "high" kw = "high" := by
  unfold sevStep
  split_ifs with h1 h2 h3
  · rfl
  · exact absurd rfl h2.2
  · exact absurd h3 (by decide)
  · rfl

theorem sevStep_valid (s kw : String) (h : validSev s) :
    validSev (sevStep s kw) := by
  unfold sevStep
  split_ifs with h1 h2 h3
  · exact Or.inr (Or.inr (Or.inr rfl))
  · exact Or.inr (Or.inr (Or.inl rfl))
  · exact Or.inr (Or.inl rfl)
  · exact h

theorem sevStep_mono (s kw : String) (h : validSev s) :
    sevRank s ≤ sevRank (sevStep s kw) := by
  rcases h with rfl | rfl | rfl | rfl
  · exact Nat.zero_le _
  all_goals
    unfold sevStep
    split_ifs with h1 h2 h3 <;> simp_all [sevRank]

theorem scan_sev_valid (t : String) (kws : List String)
    (acc : List String × String) (h : validSev acc.2) :
    validSev ((kws.foldl (scanStep t) acc)).2 := by
  induction kws generalizing acc with
  | nil => exact h
  | cons k ks ih =>
    rw [List.foldl_cons]
    by_cases hm : strContains t k
    · have : scanStep t acc k = (acc.1 ++ [k], sevStep acc.2 k) := by
        simp [scanStep, hm]
      rw [this]
      exact ih (acc.1 ++ [k], sevStep acc.2 k) (sevStep_valid _ _ h)
    · simpa [scanStep, hm] using ih acc h

theorem scan_sev_mono (t : String) (kws : List String)
    (acc : List String × String) (h : validSev acc.2) :
    sevRank acc.2 ≤ sevRank ((kws.foldl (scanStep t) acc)).2 := by
  induction kws generalizing acc with
  | nil => exact Nat.le_refl _
  | cons k ks ih =>
    rw [List.foldl_cons]
    by_cases hm : strContains t k
    · calc sevRank acc.2 ≤ sevRank (sevStep acc.2 k) := sevStep_mono _ _ h
        _ ≤ _ := by
          have := ih (acc.1 ++ [k], sevStep acc.2 k) (sevStep_valid _ _ h)
          simpa [scanStep, hm] using this
    · simpa [scanStep, hm] using ih acc h

theorem scan_found_mono (t : String) (kws : List String)
    (acc : List String × String) :
    acc.1.length ≤ ((kws.foldl (scanStep t) acc)).1.length := by
  induction kws generalizing acc with
  | nil => exact Nat.le_refl _
  | cons k ks ih =>
    rw [List.foldl_cons]
    by_cases hm : strContains t k
    · have hs : scanStep t acc k = (acc.1 ++ [k], sevStep acc.2 k) := by
        simp [scanStep, hm]
      rw [hs]
      calc acc.1.length ≤ (acc.1 ++ [k]).length := by simp
        _ ≤ _ := ih (acc.1 ++ [k], sevStep acc.2 k)
    · simpa [scanStep, hm] using ih acc

theorem scan_sev_of_no_match (t : String) (kws : List String)
    (acc : List String × String)
    (h : ((kws.foldl (scanStep t) acc)).1.length = acc.1.length) :
    ((kws.foldl (scanStep t) acc)).2 = acc.2 := by
  induction kws generalizing acc with
  | nil => rfl
  | cons k ks ih =>
    rw [List.foldl_cons] at h ⊢
    by_cases hm : strContains t k
    · exfalso
      have hs : scanStep t acc k = (acc.1 ++ [k], sevStep acc.2 k) := by
        simp [scanStep, hm]
      rw [hs] at h
      have := scan_found_mono t ks (acc.1 ++ [k], sevStep acc.2 k)
      simp at this
      omega
    · have hs : scanStep t acc k = acc := by simp [scanStep, hm]
      rw [hs] at h ⊢
      exact ih acc h

theorem scanKeywords_empty_sev (t : String)
    (h : (scanKeywords t).1 = []) : (scanKeywords t).2 = "none" := by
  unfold scanKeywords at h ⊢
  exact scan_sev_of_no_match t crisis_keywords ([], "none") (by simp [h])

theorem milestone_fold_preserves (n : Nat) (l : List Nat) (ms : List Nat)
    (x : Nat) (hx : x ∈ ms) : x ∈ l.foldl (milestoneStep n) ms := by
  induction l generalizing ms with
  | nil => exact hx
  | cons k ks ih =>
    rw [List.foldl_cons]
    refine ih (milestoneStep n ms k) ?_
    unfold milestoneStep
    split_ifs with h
    · exact List.mem_append_left _ hx
    · exact hx

theorem milestone_fold_mem (n : Nat) (l : List Nat) (ms : List Nat)
    (m : Nat) (hm : m ∈ l) (hle : m ≤ n) :
    m ∈ l.foldl (milestoneStep n) ms := by
  induction l generalizing ms with
  | nil => cases hm
  | cons k ks ih =>
    rw [List.foldl_cons]
    rcases List.mem_cons.mp hm with rfl | hmem
    · refine milestone_fold_preserves n ks _ m ?_
      unfold milestoneStep
      split_ifs with h
      · exact List.mem_append_right _ (List.mem_singleton_self m)
      · rcases not_and_or.mp h with h1 | h2
        · exact absurd hle h1
        · exact not_not.mp h2
    · exact ih _ hmem

theorem addMilestones_preserves (n : Nat) (ms : List Nat) (x : Nat)
    (hx : x ∈ ms) : x ∈ addMilestones n ms :=
  milestone_fold_preserves n milestone_days ms x hx

theorem addMilestones_mem (n : Nat) (ms : List Nat) (m : Nat)
    (hm : m ∈ milestone_days) (hle : m ≤ n) : m ∈ addMilestones n ms :=
  milestone_fold_mem n milestone_days ms m hm hle

theorem update_consecutive (r : StreakRow) (lc : Int)
    (h : r.last_checkin_date = some lc) :
    (update_user_streak (some r) (lc + 1)).current_streak
      = r.current_streak + 1 := by
  have hd : (update_user_streak (some r) (lc + 1)).current_streak =
      (match r.last_checkin_date with
        | none => 1
        | some lc0 =>
          if lc + 1 = lc0 then r.current_streak
          else if lc + 1 = lc0 + 1 then r.current_streak + 1
          else 1) := rfl
  rw [hd, h]
  show (if lc + 1 = lc then r.current_streak
    else if lc + 1 = lc + 1 then r.current_streak + 1 else 1)
      = r.current_streak + 1
  rw [if_neg (by omega), if_pos rfl]

theorem checkins_spec (start : Int) (n : Nat) :
    (checkins start n).current_streak = n + 1
    ∧ (checkins start n).last_checkin_date = some (start + n) := by
  induction n with
  | zero =>
    refine ⟨rfl, ?_⟩
    show some start = some (start + ((0 : Nat) : Int))
    norm_num
  | succ n ih =>
    obtain ⟨ih1, ih2⟩ := ih
    have hstep : checkins start (n + 1) =
        update_user_streak (some (checkins start n))
          (start + ((n : Int) + 1)) := by
      show checkins start (n + 1) =
        update_user_streak (some (checkins start n))
          (start + (((n : Nat) + 1 : Nat) : Int))
      push_cast
      rfl
    have hdate : start + ((n : Int) + 1) = (start + (n : Int)) + 1 := by ring
    constructor
    · rw [hstep, hdate, update_consecutive _ _ ih2, ih1]
    · rw [hstep]
      show some (start + ((n : Int) + 1))
        = some (start + (((n : Nat) + 1 : Nat) : Int))
      push_cast
      rfl

/-! ## Claims -/

/-- C3: during the keyword scan the severity tier only escalates along
none < low < medium < high: each escalation step is monotone in rank,
"high" is never downgraded, a medium-severity (non-high) keyword takes
any non-"high" tier to "medium", a keyword in neither priority subset
yields at least "low", and the scan's running severity never decreases
over any remaining keyword list. -/
theorem severity_escalation (s kw t : String) (h : validSev s) :
    sevRank s ≤ sevRank (sevStep s kw)
    ∧ sevStep "high" kw = "high"
    ∧ (kw ∈ medium_severity_keywords → kw ∉ high_severity_keywords →
        s ≠ "high" → sevStep s kw = "medium")
    ∧ (kw ∉ high_severity_keywords → kw ∉ medium_severity_keywords →
        1 ≤ sevRank (sevStep s kw))
    ∧ (∀ kws : List String, ∀ found : List String,
        sevRank s ≤ sevRank ((kws.foldl (scanStep t) (found, s))).2) := by
  refine ⟨sevStep_mono s kw h, sevStep_from_high kw, ?_, ?_, ?_⟩
  · intro hm hh hs
    unfold sevStep
    rw [if_neg hh, if_pos ⟨hm, hs⟩]
  · intro hh hm
    rcases h with rfl | rfl | rfl | rfl <;>
      simp [sevStep, hh, hm, sevRank]
  · intro kws found
    exact scan_sev_mono t kws (found, s) h

/-- C1: `analyze_crisis_level` assigns `crisis_level` by the top-down
tie-break table, first match wins: "critical" when severity is "high" or
sentiment crisis coincides with at least one keyword; else "high" when
severity is "medium", or sentiment crisis, or at least two keywords;
else "moderate" when at least one keyword or mood below -0.6; else
"none".  In particular "I want to kill myself" yields is_crisis = true
and crisis_level = "critical" for every mood score. -/
theorem crisis_level_tie_break (text : String) (mood_score : ℚ) :
    ((analyze_crisis_level text mood_score).crisis_level =
      (if (analyze_crisis_level text mood_score).severity_assessment = "high" ∨
          ((analyze_crisis_level text mood_score).sentiment_crisis = true ∧
            0 < (analyze_crisis_level text mood_score).found_keywords.length) then
        "critical"
      else if (analyze_crisis_level text mood_score).severity_assessment = "medium" ∨
          (analyze_crisis_level text mood_score).sentiment_crisis = true ∨
          2 ≤ (analyze_crisis_level text mood_score).found_keywords.length then
        "high"
      else if 0 < (analyze_crisis_level text mood_score).found_keywords.length ∨
          mood_score < -(3/5 : ℚ) then
        "moderate"
      else "none"))
    ∧ (analyze_crisis_level "I want to kill myself" mood_score).is_crisis = true
    ∧ (analyze_crisis_level "I want to kill myself" mood_score).crisis_level
        = "critical" := by
  have hscan : scanKeywords (lowerStr "I want to kill myself")
      = (["kill myself"], "high") := by decide
  refine ⟨rfl, ?_, ?_⟩
  · simp [analyze_crisis_level, hscan]
  · simp [analyze_crisis_level, hscan]

/-- C7: `sentiment_crisis` is exactly the fixed threshold
`mood_score < -0.8`, and `is_crisis` holds exactly when sentiment
crisis, some matched keyword, or a "high"/"medium" severity tier holds;
hence any mood score below -0.8 forces `is_crisis` regardless of text. -/
theorem sentiment_crisis_threshold (text : String) (mood_score : ℚ) :
    ((analyze_crisis_level text mood_score).is_crisis = true ↔
      ((analyze_crisis_level text mood_score).sentiment_crisis = true ∨
        (analyze_crisis_level text mood_score).found_keywords ≠ [] ∨
        (analyze_crisis_level text mood_score).severity_assessment = "high" ∨
        (analyze_crisis_level text mood_score).severity_assessment = "medium"))
    ∧ (mood_score < -(4/5 : ℚ) →
        (analyze_crisis_level text mood_score).sentiment_crisis = true
        ∧ (analyze_crisis_level text mood_score).is_crisis = true) := by
  constructor
  · simp [analyze_crisis_level, Bool.or_eq_true, decide_eq_true_iff,
      List.length_pos, or_assoc]
  · intro h
    constructor
    · simp [analyze_crisis_level, h]
    · simp [analyze_crisis_level, h]

/-- Witness for `sentiment_crisis_threshold`: empty text with mood score
-0.9 is flagged purely by sentiment. -/
theorem sentiment_crisis_threshold_witness :
    (analyze_crisis_level "" (-(9/10))).sentiment_crisis = true
    ∧ (analyze_crisis_level "" (-(9/10))).is_crisis = true :=
  (sentiment_crisis_threshold "" (-(9/10))).2 (by norm_num)

/-- C10: `is_crisis` and a non-"none" `crisis_level` come apart: for any
text matching no crisis keyword and any mood score in [-0.8, -0.6), the
analyzer returns is_crisis = false together with
crisis_level = "moderate". -/
theorem moderate_level_without_crisis_flag (text : String) (mood_score : ℚ)
    (h0 : (analyze_crisis_level text mood_score).found_keywords = [])
    (h1 : -(4/5 : ℚ) ≤ mood_score) (h2 : mood_score < -(3/5 : ℚ)) :
    (analyze_crisis_level text mood_score).is_crisis = false
    ∧ (analyze_crisis_level text mood_score).crisis_level = "moderate" := by
  have hfk : (scanKeywords (lowerStr text)).1 = [] := h0
  have hsev : (scanKeywords (lowerStr text)).2 = "none" :=
    scanKeywords_empty_sev _ hfk
  have hns : ¬ (mood_score < -(4/5 : ℚ)) := not_lt.mpr h1
  constructor
  · simp [analyze_crisis_level, hfk, hsev, hns]
  · simp [analyze_crisis_level, hfk, hsev, hns, h2]

/-- Witness for `moderate_level_without_crisis_flag` at empty text and
mood score -0.7. -/
theorem moderate_level_without_crisis_flag_witness :
    (analyze_crisis_level "" (-(7/10))).is_crisis = false
    ∧ (analyze_crisis_level "" (-(7/10))).crisis_level = "moderate" :=
  moderate_level_without_crisis_flag "" (-(7/10)) (by decide)
    (by norm_num) (by norm_num)

/-- C2: the streak update follows the case table (first check-in or
null date → 1; same day → unchanged; next day → +1; otherwise → 1),
longest_streak becomes the max of the old value and the new streak,
milestones are never removed and every reached threshold is added; seven
consecutive daily check-ins from no prior state give current_streak = 7,
longest_streak ≥ 7, and 7 among the achieved milestones. -/
theorem streak_update_table (row : Option StreakRow) (d start : Int) :
    ((row.map (·.last_checkin_date)).getD none = none →
      (update_user_streak row d).current_streak = 1)
    ∧ (∀ lc : Int, (row.map (·.last_checkin_date)).getD none = some lc →
        (update_user_streak row d).current_streak =
          (if d = lc then (row.map (·.current_streak)).getD 0
           else if d = lc + 1 then (row.map (·.current_streak)).getD 0 + 1
           else 1))
    ∧ (update_user_streak row d).longest_streak =
        max ((row.map (·.longest_streak)).getD 0)
          (update_user_streak row d).current_streak
    ∧ (∀ x ∈ (row.map (·.streak_milestones)).getD [],
        x ∈ (update_user_streak row d).streak_milestones)
    ∧ (∀ m ∈ milestone_days, m ≤ (update_user_streak row d).current_streak →
        m ∈ (update_user_streak row d).streak_milestones)
    ∧ (checkins start 6).current_streak = 7
    ∧ 7 ≤ (checkins start 6).longest_streak
    ∧ 7 ∈ (checkins start 6).streak_milestones := by
  have hcur : (update_user_streak row d).current_streak =
      (match (row.map (·.last_checkin_date)).getD none with
        | none => 1
        | some lc =>
          if d = lc then (row.map (·.current_streak)).getD 0
          else if d = lc + 1 then (row.map (·.current_streak)).getD 0 + 1
          else 1) := rfl
  have hmil : (update_user_streak row d).streak_milestones =
      addMilestones (update_user_streak row d).current_streak
        ((row.map (·.streak_milestones)).getD []) := rfl
  have hlong : ∀ (row0 : Option StreakRow) (d0 : Int),
      (update_user_streak row0 d0).current_streak ≤
        (update_user_streak row0 d0).longest_streak :=
    fun row0 d0 => Nat.le_max_right _ _
  have h7 : (checkins start 6).current_streak = 7 := (checkins_spec start 6).1
  refine ⟨?_, ?_, rfl, ?_, ?_, h7, ?_, ?_⟩
  · intro h
    rw [hcur, h]
  · intro lc h
    rw [hcur, h]
  · intro x hx
    rw [hmil]
    exact addMilestones_preserves _ _ x hx
  · intro m hm hle
    rw [hmil]
    exact addMilestones_mem _ _ m hm hle
  · rw [← h7]
    exact hlong _ _
  · have hm7 : (checkins start 6).streak_milestones =
        addMilestones (checkins start 6).current_streak
          (checkins start 5).streak_milestones := rfl
    rw [hm7, h7]
    exact addMilestones_mem _ _ 7 (by decide) (by norm_num)

/-- Witness for `streak_update_table` at an absent prior row and start
day 0. -/
theorem streak_update_table_witness :
    (update_user_streak none 0).current_streak = 1
    ∧ (checkins 0 6).current_streak = 7
    ∧ 7 ≤ (checkins 0 6).longest_streak
    ∧ 7 ∈ (checkins 0 6).streak_milestones :=
  ⟨(streak_update_table none 0 0).1 rfl,
   (streak_update_table none 0 0).2.2.2.2.2.1,
   (streak_update_table none 0 0).2.2.2.2.2.2.1,
   (streak_update_table none 0 0).2.2.2.2.2.2.2⟩

/-- C5: every streak update stores total_checkins = prior total + 1,
unconditionally; in particular a same-day re-submission leaves
current_streak unchanged while total_checkins still rises. -/
theorem total_checkins_increment (row : Option StreakRow) (d : Int) :
    (update_user_streak row d).total_checkins =
      (row.map (·.total_checkins)).getD 0 + 1
    ∧ (∀ r : StreakRow, row = some r → r.last_checkin_date = some d →
        (update_user_streak row d).current_streak = r.current_streak
        ∧ (update_user_streak row d).total_checkins
            = r.total_checkins + 1) := by
  refine ⟨rfl, ?_⟩
  rintro r rfl h
  refine ⟨?_, rfl⟩
  have hcur : (update_user_streak (some r) d).current_streak =
      (match r.last_checkin_date with
        | none => 1
        | some lc =>
          if d = lc then r.current_streak
          else if d = lc + 1 then r.current_streak + 1
          else 1) := rfl
  rw [hcur, h]
  show (if d = d then r.current_streak
    else if d = d + 1 then r.current_streak + 1 else 1) = r.current_streak
  rw [if_pos rfl]

/-- Witness for `total_checkins_increment`: a same-day re-submission on
day 2 of a row with streak 3 and 10 prior check-ins. -/
theorem total_checkins_increment_witness :
    (update_user_streak (some ⟨3, 5, some 2, 10, []⟩) 2).current_streak = 3
    ∧ (update_user_streak (some ⟨3, 5, some 2, 10, []⟩) 2).total_checkins
        = 11 :=
  (total_checkins_increment (some ⟨3, 5, some 2, 10, []⟩) 2).2
    ⟨3, 5, some 2, 10, []⟩ rfl rfl

/-- C6: reading streak info for a row whose last check-in lies more than
one day in the past reports current_streak = 0 while the stored row is
returned unchanged, and all other reported fields are the stored ones. -/
theorem streak_info_read_decay (r : StreakRow) (lc today : Int)
    (h1 : r.last_checkin_date = some lc) (h2 : 1 < today - lc) :
    (get_user_streak_info (some r) today).1.current_streak = 0
    ∧ (get_user_streak_info (some r) today).2 = some r
    ∧ (get_user_streak_info (some r) today).1.longest_streak
        = r.longest_streak
    ∧ (get_user_streak_info (some r) today).1.total_checkins
        = r.total_checkins
    ∧ (get_user_streak_info (some r) today).1.milestones_achieved
        = r.streak_milestones
    ∧ (get_user_streak_info (some r) today).1.last_checkin_date
        = r.last_checkin_date := by
  refine ⟨?_, rfl, rfl, rfl, rfl, rfl⟩
  have hcur : (get_user_streak_info (some r) today).1.current_streak =
      (match r.last_checkin_date with
        | some lc0 => if 1 < today - lc0 then 0 else r.current_streak
        | none => r.current_streak) := rfl
  rw [hcur, h1]
  show (if 1 < today - lc then 0 else r.current_streak) = 0
  rw [if_pos h2]

/-- Witness for `streak_info_read_decay`: a stored streak of 5 last
updated on day 0, read on day 3. -/
theorem streak_info_read_decay_witness :
    (get_user_streak_info (some ⟨5, 6, some 0, 9, [7]⟩) 3).1.current_streak
      = 0
    ∧ (get_user_streak_info (some ⟨5, 6, some 0, 9, [7]⟩) 3).2
        = some ⟨5, 6, some 0, 9, [7]⟩ :=
  ⟨(streak_info_read_decay ⟨5, 6, some 0, 9, [7]⟩ 0 3 rfl (by norm_num)).1,
   (streak_info_read_decay ⟨5, 6, some 0, 9, [7]⟩ 0 3 rfl (by norm_num)).2.1⟩

/-- C9: an analytics window containing zero interactions yields
total_interactions = 0 and crisis_rate = 0; the guarded division is
taken only when total_interactions is positive. -/
theorem analytics_zero_interactions (interactions : List InteractionRow)
    (crisis_events : List CrisisEventRow) (now days : Int)
    (h : interactions.filter (fun i => now - days ≤ i.timestamp) = []) :
    (get_analytics_summary interactions crisis_events now days).total_interactions
      = 0
    ∧ (get_analytics_summary interactions crisis_events now days).crisis_rate
        = 0 := by
  have hlen :
      (interactions.filter (fun i => now - days ≤ i.timestamp)).length = 0 := by
    rw [h]
    rfl
  refine ⟨hlen, ?_⟩
  have hrate :
      (get_analytics_summary interactions crisis_events now days).crisis_rate =
        (if 0 < (interactions.filter
            (fun i => now - days ≤ i.timestamp)).length then
          (((crisis_events.filter
              (fun e => now - days ≤ e.timestamp)).length : ℚ) /
              ((interactions.filter
                (fun i => now - days ≤ i.timestamp)).length : ℚ)) * 100
        else 0) := rfl
  rw [hrate, hlen]
  norm_num

/-- Witness for `analytics_zero_interactions` on an empty ledger. -/
theorem analytics_zero_interactions_witness :
    (get_analytics_summary [] [] 0 7).total_interactions = 0
    ∧ (get_analytics_summary [] [] 0 7).crisis_rate = 0 :=
  analytics_zero_interactions [] [] 0 7 rfl

/-- C8: helpline resolution depends only on the lower-cased location,
any location with no table entry gets the "international" entry as
primary, and the additional entries are always the US, UK and India
helplines. -/
theorem helpline_resolution (loc1 loc2 : String) :
    (lowerStr loc1 = lowerStr loc2 → get_helplines loc1 = get_helplines loc2)
    ∧ (helplines.lookup (lowerStr loc1) = none →
        (get_helplines loc1).primary = helpline_international)
    ∧ (get_helplines loc1).additional
        = [helpline_us, helpline_uk, helpline_india] := by
  refine ⟨?_, ?_, rfl⟩
  · intro h
    unfold get_helplines
    rw [h]
  · intro h
    show (match helplines.lookup (lowerStr loc1) with
      | some hl => hl
      | none => helpline_international) = helpline_international
    rw [h]

/-- Witness for `helpline_resolution`: "MARS" and "mars" resolve alike
and fall back to the international entry. -/
theorem helpline_resolution_witness :
    get_helplines "MARS" = get_helplines "mars"
    ∧ (get_helplines "MARS").primary = helpline_international :=
  ⟨(helpline_resolution "MARS" "mars").1 (by decide),
   (helpline_resolution "MARS" "mars").2.1 (by decide)⟩

/-- C4 counterexample: with crisis_level = "moderate" the category
selection does not pick the "crisis" bucket (at mood score 0.5 it picks
"positive"), refuting the claim that "moderate" or higher selects the
crisis bucket. -/
theorem recommendation_category_moderate_counter :
    recommendation_category (1/2) "moderate" = "positive"
    ∧ recommendation_category (1/2) "moderate" ≠ "crisis" := by
  unfold recommendation_category
  constructor
  · rw [if_neg (fun h => h.elim (by decide) (by decide)),
      if_neg (by norm_num), if_neg (by norm_num)]
  · rw [if_neg (fun h => h.elim (by decide) (by decide)),
      if_neg (by norm_num), if_neg (by norm_num)]
    decide

/-- C4 amended: only crisis_level "critical" or "high" selects the
"crisis" bucket; for any other crisis_level (including "moderate") the
category follows the mood thresholds, so "moderate" with a non-negative
mood is not sent to the crisis bucket. -/
theorem recommendation_category_table (mood_score : ℚ) (crisis_level : String) :
    ((crisis_level = "critical" ∨ crisis_level = "high") →
      recommendation_category mood_score crisis_level = "crisis")
    ∧ (crisis_level ≠ "critical" → crisis_level ≠ "high" →
        mood_score < -(1/2 : ℚ) →
        recommendation_category mood_score crisis_level = "moderate_negative")
    ∧ (crisis_level ≠ "critical" → crisis_level ≠ "high" →
        -(1/2 : ℚ) ≤ mood_score → mood_score < (1/10 : ℚ) →
        recommendation_category mood_score crisis_level = "neutral")
    ∧ (crisis_level ≠ "critical" → crisis_level ≠ "high" →
        (1/10 : ℚ) ≤ mood_score →
        recommendation_category mood_score crisis_level = "positive")
    ∧ (crisis_level = "moderate" → (1/10 : ℚ) ≤ mood_score →
        recommendation_category mood_score crisis_level ≠ "crisis") := by
  unfold recommendation_category
  refine ⟨?_, ?_, ?_, ?_, ?_⟩
  · intro h
    rw [if_pos h]
  · intro hc hh hm
    rw [if_neg (fun h => h.elim hc hh), if_pos hm]
  · intro hc hh hm1 hm2
    rw [if_neg (fun h => h.elim hc hh), if_neg (not_lt.mpr hm1), if_pos hm2]
  · intro hc hh hm
    rw [if_neg (fun h => h.elim hc hh),
      if_neg (not_lt.mpr (by linarith)), if_neg (not_lt.mpr hm)]
  · intro hcl hm
    subst hcl
    rw [if_neg (fun h => h.elim (by decide) (by decide)),
      if_neg (not_lt.mpr (by linarith)), if_neg (not_lt.mpr hm)]
    decide

/-- Witness for `recommendation_category_table`: "critical" maps to the
crisis bucket, and "moderate" with mood 0.5 does not. -/
theorem recommendation_category_table_witness :
    recommendation_category 0 "critical" = "crisis"
    ∧ recommendation_category (1/2) "moderate" ≠ "crisis" :=
  ⟨(recommendation_category_table 0 "critical").1 (Or.inl rfl),
   (recommendation_category_table (1/2) "moderate").2.2.2.2 rfl
     (by norm_num)⟩

/-- Witness for `severity_escalation` at a concrete severity and
keyword. -/
theorem severity_escalation_witness :
    sevRank "none" ≤ sevRank (sevStep "none" "hopeless")
    ∧ sevStep "high" "hopeless" = "high"
    ∧ ("hopeless" ∈ medium_severity_keywords →
        "hopeless" ∉ high_severity_keywords →
        "none" ≠ "high" → sevStep "none" "hopeless" = "medium")
    ∧ ("hopeless" ∉ high_severity_keywords →
        "hopeless" ∉ medium_severity_keywords →
        1 ≤ sevRank (sevStep "none" "hopeless"))
    ∧ (∀ kws : List String, ∀ found : List String,
        sevRank "none" ≤
          sevRank ((kws.foldl (scanStep "abc") (found, "none"))).2) :=
  severity_escalation "none" "hopeless" "abc" (Or.inl rfl)

end MentalHealth
